import Mathlib

/-!
# Verification of the Avalon game engine (`src/game.rs`)

Shallow embedding of the rule engine of a hidden-role social-deduction game:
the pure utilities (team-size table, mission outcome, winner rule, cyclic index
arithmetic, role tables), the client facade state transitions (`suggest_team`,
`add_team_vote`, `submit_for_mission`), and a deterministic model of the driver
loop (`Game::start`) where the randomness (initial crown, role shuffle, batch
reorder before `MissionResult`) is exposed as explicit parameters and the
channel traffic is a script of inputs.

Rust `usize` arithmetic is modelled over `Nat` with explicit wrapping modulo
`2^64` where the source can underflow (release-profile semantics); an
out-of-bounds slice index or an explicit `panic!` is modelled as a distinguished
`panicked` / `none` outcome.
-/

namespace Avalon

/-- `Team` from game.rs: the alignment of a role. -/
inductive Team where
  | Good
  | Bad
  deriving DecidableEq, BEq

/-- `Role` from game.rs. `Good2` duplicates `Good` so that a team selection can
reference two distinct generic-good occupants. -/
inductive Role where
  | Mordred
  | Morgen
  | Oberon
  | Assassin
  | Bad
  | Merlin
  | Percival
  | Good
  | Good2
  deriving DecidableEq, BEq

/-- `Role::is_good` from game.rs. -/
def Role.is_good : Role → Bool
  | .Merlin => true
  | .Percival => true
  | .Good => true
  | .Good2 => true
  | .Mordred => false
  | .Morgen => false
  | .Assassin => false
  | .Oberon => false
  | .Bad => false

/-- `TeamVote` from game.rs. -/
inductive TeamVote where
  | Approve
  | Reject
  deriving DecidableEq, BEq

/-- `MissionVote` from game.rs. -/
inductive MissionVote where
  | Success
  | Fail
  deriving DecidableEq, BEq

/-- `GameResult` from game.rs. -/
inductive GameResult where
  | GoodWins
  | BadWins
  deriving DecidableEq, BEq

/-- `MAX_TRY_COUNT` from game.rs. -/
def MAX_TRY_COUNT : Nat := 5

/-- `GameInfo` from game.rs: the shared game record. Player ids (`ID = u8`) are
modelled as `Nat`. -/
structure GameInfo where
  players : List Role
  expected_team_size : Nat
  current_team : List Nat
  mermaid_id : Nat
  crown_id : Nat
  missions : List MissionVote
  deriving DecidableEq

/-- `GameEvent` from game.rs. -/
inductive GameEvent where
  | Turn (crown : Nat) (size : Nat)
  | TeamSuggested (team : List Nat)
  | TeamVote (votes : List TeamVote)
  | TeamApproved (team : List Nat)
  | TeamRejected (tryCount : Nat)
  | MissionResult (votes : List MissionVote)
  | Mermaid (holder : Nat)
  | MermaidResult (holder : Nat) (checked : Nat) (team : Team)
  | MermaidSays (holder : Nat) (checked : Nat) (word : Team)
  | BadLastChance (badTeam : List Nat) (guesser : Nat)
  | Merlin (actual : Nat)
  | GameResult (result : GameResult)
  deriving DecidableEq

/-- `is_mission_approved` from game.rs: strict majority of `Approve`;
an empty vote list is rejected explicitly. -/
def is_mission_approved (votes : List TeamVote) : Bool :=
  if votes.length = 0 then false
  else
    let approve_cnt := (votes.filter (fun x => decide (x = TeamVote.Approve))).length
    decide (votes.length < approve_cnt * 2)

/-- The outcome of `get_expected_team_size`: a table entry, `None`
("unsupported"), or a Rust panic (array index out of bounds / integer
underflow in a debug build). -/
inductive LookupResult where
  | found (n : Nat)
  | unsupported
  | panicked
  deriving DecidableEq

/-- `TEAM_SIZE_TABLE` from game.rs: 5 mission rows, columns for 2..=10 players. -/
def TEAM_SIZE_TABLE : List (List Nat) :=
  [[1, 2, 2, 2, 2, 2, 3, 3, 3],
   [2, 3, 3, 3, 3, 3, 4, 4, 4],
   [1, 2, 2, 2, 4, 3, 4, 4, 4],
   [2, 3, 3, 3, 3, 4, 5, 5, 5],
   [2, 3, 3, 3, 4, 4, 5, 5, 5]]

/-- `usize` wrapping subtraction of 1 (equals `(n + (2^64 - 1)) % 2^64` for
`n < 2^64`, the release-profile semantics of `n - 1` on `usize`). -/
def wrapping_sub1 (n : Nat) : Nat :=
  match n with
  | 0 => 18446744073709551615
  | m + 1 => m

/-- `usize` wrapping subtraction of 2 (equals `(n + (2^64 - 2)) % 2^64` for
`n < 2^64`, the release-profile semantics of `n - 2` on `usize`). -/
def wrapping_sub2 (n : Nat) : Nat :=
  match n with
  | 0 => 18446744073709551614
  | 1 => 18446744073709551615
  | m + 2 => m

/-- `get_expected_team_size(mission, players)` from game.rs. The source
computes `mission - 1` and `players - 2` on `usize`; subtraction is modelled
as wrapping modulo `2^64` (release semantics) and an out-of-range slice index
as `panicked`. -/
def get_expected_team_size (mission players : Nat) : LookupResult :=
  let m := wrapping_sub1 mission
  if 5 < m then .unsupported
  else if players < 1 ∨ 10 < players then .unsupported
  else
    let col := wrapping_sub2 players
    match (TEAM_SIZE_TABLE.get? m).bind (fun row => row.get? col) with
    | some v => .found v
    | none => .panicked

/-- The `fails_count` computation shared by `calc_mission_result` and
`calc_winner` in game.rs. -/
def fails_count (mission_votes : List MissionVote) : Nat :=
  (mission_votes.filter (fun x => decide (x = MissionVote.Fail))).length

/-- `calc_mission_result(mission, players, mission_votes)` from game.rs. -/
def calc_mission_result (mission players : Nat)
    (mission_votes : List MissionVote) : MissionVote :=
  let success :=
    if 7 < players ∧ mission = 4 then fails_count mission_votes < 2
    else fails_count mission_votes = 0
  if success then .Success else .Fail

/-- `calc_winner(mission_votes)` from game.rs. -/
def calc_winner (mission_votes : List MissionVote) : Option GameResult :=
  let fails := fails_count mission_votes
  let succ := mission_votes.length - fails
  if 3 ≤ fails then some .BadWins
  else if 3 ≤ succ then some .GoodWins
  else none

/-- `default_team(players)` from game.rs: the fixed role table. The
`_ => panic!` arm is modelled as `none`. -/
def default_team (players : Nat) : Option (List Role) :=
  if players = 2 then some [.Merlin, .Mordred]
  else if players = 3 then some [.Merlin, .Good, .Mordred]
  else if players = 4 then some [.Merlin, .Good, .Good2, .Mordred]
  else if players = 5 then some [.Merlin, .Good, .Good2, .Mordred, .Morgen]
  else if players = 6 then
    some [.Merlin, .Percival, .Good, .Good2, .Mordred, .Morgen]
  else if players = 7 then
    some [.Merlin, .Percival, .Good, .Good2, .Mordred, .Morgen, .Oberon]
  else none

/-- `find_role_safe(players, search_for)` from game.rs: first index holding
the role. -/
def find_role_safe (players : List Role) (search_for : Role) : Option Nat :=
  players.findIdx? (fun r => decide (r = search_for))

/-- `calc_prev_id(id, players)` from game.rs: `(id - 1).rem_euclid(players)`
over `i32`. -/
def calc_prev_id (id players : Nat) : Nat :=
  (((id : Int) - 1) % (players : Int)).toNat

/-- `calc_next_id(id, players)` from game.rs. -/
def calc_next_id (id players : Nat) : Nat :=
  (((id : Int) + 1) % (players : Int)).toNat

/-- `Game::setup(number)` from game.rs, restricted to the construction of the
shared `GameInfo` record: the random crown draw `rng.gen_range(0..number)` is
the explicit argument `crown_id`, and the random `players.shuffle(&mut rng)`
is the explicit argument `perm` (intended to be a permutation). `default_team`
panicking is propagated as `none`. -/
def setup_info (number crown_id : Nat) (perm : List Role → List Role) :
    Option GameInfo :=
  match default_team number with
  | none => none
  | some team =>
      some { players := perm team
             expected_team_size := 0
             current_team := []
             crown_id := crown_id
             mermaid_id := calc_prev_id crown_id number
             missions := [] }

/-- The state held by `GameClient` that the facade operations mutate: the
shared record, the per-round team-vote slot buffer, and the pending
mission-vote list. -/
structure ClientState where
  info : GameInfo
  votes : List (Option TeamVote)
  mission_votes : List MissionVote
  deriving DecidableEq

/-- Outcome of a facade call: a synchronous error (`Err(...)` in the source),
success together with the payload forwarded to the driver channel (if any),
or a Rust panic. -/
inductive CallResult (α : Type) where
  | ok (sent : Option α)
  | err (msg : String)
  | panicked
  deriving DecidableEq

/-- `GameClient::suggest_team(from, suggested_team)` from game.rs.
Returns the (unchanged) state and the payload sent on `tx_team`, if any. -/
def suggest_team (st : ClientState) (fromId : Nat) (suggested_team : List Nat) :
    ClientState × CallResult (List Nat) :=
  if fromId ≠ st.info.crown_id then
    (st, .err "Teammate can only be added by crown holder")
  else if suggested_team.length ≠ st.info.expected_team_size then
    (st, .err "A team of unexpected size was selected")
  else
    (st, .ok (some suggested_team))

/-- `GameClient::add_team_vote(from, vote)` from game.rs: writes into the
per-player slot buffer; when no slot is `None` the ordered batch is sent on
`tx_vote` and every slot is reset to `None`. The out-of-bounds write
`votes_ref[from] = ...` is modelled as `none` (panic). -/
def add_team_vote (votes : List (Option TeamVote)) (fromId : Nat)
    (vote : TeamVote) :
    Option (List (Option TeamVote) × Option (List TeamVote)) :=
  if fromId < votes.length then
    let votes1 := votes.set fromId (some vote)
    if votes1.contains none then some (votes1, none)
    else
      -- every slot is `some`; `.map unwrap` is modelled by `filterMap id`
      some (List.replicate votes1.length none, some (votes1.filterMap id))
  else none

/-- `GameClient::submit_for_mission(from, vote)` from game.rs: membership in
`current_team` is checked first, then `players[from]` is indexed (panic when
out of bounds), then the good-player/`Fail` combination is rejected; otherwise
the vote is pushed and, once `expected_team_size` votes are pending, the batch
is sent on `tx_mission` and the buffer cleared. -/
def submit_for_mission (st : ClientState) (fromId : Nat) (vote : MissionVote) :
    ClientState × CallResult (List MissionVote) :=
  if fromId ∈ st.info.current_team then
    match st.info.players[fromId]? with
    | none => (st, .panicked)
    | some role =>
        if role.is_good ∧ vote = .Fail then
          (st, .err "Good player could vote only with Success")
        else
          let votes := st.mission_votes ++ [vote]
          if st.info.expected_team_size = votes.length then
            ({ st with mission_votes := [] }, .ok (some votes))
          else
            ({ st with mission_votes := votes }, .ok none)
  else (st, .err "Vote can only be sent by current team player")

/-! ## Driver model

`Game::start` runs one long-lived loop. Channel receives are modelled by a
script: each iteration of the outer `while` consumes one `TurnInput` (the team
suggestions with their vote batches until the inner loop exits, the mission
vote batch, and the mermaid selection/word). An exhausted script, a closed
channel, a configuration error or a panic all abort the run (`none` result);
the random reorder of the mission votes before the `MissionResult` event is
modelled as the identity permutation (the event carries the same multiset). -/

/-- The inputs consumed by one iteration of the outer loop of `Game::start`. -/
structure TurnInput where
  attempts : List (List Nat × List TeamVote)
  missionVotes : List MissionVote
  mermaidSelection : Nat
  mermaidWord : Team
  deriving DecidableEq

/-- How the inner suggestion/vote loop of `Game::start` exited. -/
inductive LoopExit where
  | approved
  | spiral
  deriving DecidableEq

/-- Result of one pass of the inner suggestion-loop body of `Game::start`. -/
inductive StepRes where
  | abort
  | exitLoop (info : GameInfo) (tc : Nat) (ex : LoopExit)
  | next (info : GameInfo) (tc : Nat)
  deriving DecidableEq

/-- One pass of the inner `loop` body of `Game::start` for a single
suggestion/vote pair: update the expected team size (abort on a failed
lookup), emit `Turn`, record the suggestion as `current_team`, emit
`TeamSuggested` and `TeamVote`, then either approve (emit `TeamApproved`,
shift the crown, break) or reject (increment `try_count`, emit
`TeamRejected`, break when `try_count >= MAX_TRY_COUNT`, else shift the
crown and continue). -/
def runAttemptsStep (info : GameInfo) (tryCount : Nat)
    (a : List Nat × List TeamVote) : List GameEvent × StepRes :=
  match get_expected_team_size (info.missions.length + 1)
      info.players.length with
  | .found sz =>
    if is_mission_approved a.2 then
      ([GameEvent.Turn info.crown_id sz, GameEvent.TeamSuggested a.1,
        GameEvent.TeamVote a.2, GameEvent.TeamApproved a.1],
       .exitLoop
         { info with
            expected_team_size := sz
            current_team := a.1
            crown_id := calc_next_id info.crown_id info.players.length }
         tryCount .approved)
    else if MAX_TRY_COUNT ≤ tryCount + 1 then
      ([GameEvent.Turn info.crown_id sz, GameEvent.TeamSuggested a.1,
        GameEvent.TeamVote a.2, GameEvent.TeamRejected (tryCount + 1)],
       .exitLoop { info with expected_team_size := sz, current_team := a.1 }
         (tryCount + 1) .spiral)
    else
      ([GameEvent.Turn info.crown_id sz, GameEvent.TeamSuggested a.1,
        GameEvent.TeamVote a.2, GameEvent.TeamRejected (tryCount + 1)],
       .next
         { info with
            expected_team_size := sz
            current_team := a.1
            crown_id := calc_next_id info.crown_id info.players.length }
         (tryCount + 1))
  | _ => ([], .abort)

/-- The inner `loop` of `Game::start`, consuming one suggestion/vote pair per
pass. Result `none` models an aborted run (exhausted input or failed size
lookup). -/
def runAttempts (info : GameInfo) (tryCount : Nat) :
    List (List Nat × List TeamVote) →
    List GameEvent × Option (GameInfo × Nat × LoopExit)
  | [] => ([], none)
  | a :: rest =>
    match runAttemptsStep info tryCount a with
    | (evs, .abort) => (evs, none)
    | (evs, .exitLoop i1 tc ex) => (evs, some (i1, tc, ex))
    | (evs, .next info2 t) =>
      let r := runAttempts info2 t rest
      (evs ++ r.1, r.2)

/-- Result of one iteration of the outer `while` loop of `Game::start`. -/
inductive IterResult where
  | ended (r : GameResult)
  | cont (info : GameInfo)
  | aborted
  deriving DecidableEq

/-- One iteration of the outer `while` loop of `Game::start`: run the
suggestion loop; on `try_count == MAX_TRY_COUNT` emit `GameResult(BadWins)`
and stop; otherwise receive the mission votes, compute the result with the
`current_mission`/`number_of_players` values captured *before* the loop,
append it, emit `MissionResult`, and run the mermaid phase when at least 7
players are in the game, the just-completed mission index is strictly between
1 and 5, and no winner exists yet. -/
def runIteration (currentMission numPlayers : Nat) (info : GameInfo)
    (ti : TurnInput) : List GameEvent × IterResult :=
  let a := runAttempts info 1 ti.attempts
  match a.2 with
  | none => (a.1, .aborted)
  | some (info1, tryCount, _) =>
    if tryCount = MAX_TRY_COUNT then
      (a.1 ++ [GameEvent.GameResult .BadWins], .ended .BadWins)
    else
      let result := calc_mission_result currentMission numPlayers
        ti.missionVotes
      let missionIdx := info1.missions.length + 1
      let info2 := { info1 with missions := info1.missions ++ [result] }
      let evs := a.1 ++ [GameEvent.MissionResult ti.missionVotes]
      let isEnd := calc_winner info2.missions ≠ none
      if 7 ≤ numPlayers ∧ 1 < missionIdx ∧ missionIdx < 5 ∧ ¬isEnd then
        let evs := evs ++ [GameEvent.Mermaid info2.mermaid_id]
        match info2.players[ti.mermaidSelection]? with
        | none => (evs, .aborted)
        | some role =>
          let t := if role.is_good then Team.Good else Team.Bad
          let evs := evs ++
            [GameEvent.MermaidResult info2.mermaid_id ti.mermaidSelection t,
             GameEvent.MermaidSays info2.mermaid_id ti.mermaidSelection
               ti.mermaidWord]
          (evs, .cont { info2 with mermaid_id := ti.mermaidSelection })
      else
        (evs, .cont info2)

/-- `Game::get_bad_team` from game.rs. -/
def get_bad_team (players : List Role) : List Nat :=
  players.enum.filterMap (fun p => if p.2.is_good then none else some p.1)

/-- `Game::get_guesser` from game.rs: the Assassin if present, else Mordred
(`find_role` panics when neither exists, modelled as `none`). -/
def get_guesser (players : List Role) : Option Nat :=
  match find_role_safe players .Assassin with
  | some assassin_id => some assassin_id
  | none => find_role_safe players .Mordred

/-- The endgame of `Game::start` after the `while` loop: `BadWins` is final;
on `GoodWins` the bad team gets a last chance to guess Merlin
(`merlinGuess` models the single receive on `rx_merlin`; `none` aborts). -/
def endPhase (info : GameInfo) (merlinGuess : Option Nat)
    (winner : GameResult) : List GameEvent × Option GameResult :=
  if winner = .BadWins then
    ([GameEvent.GameResult .BadWins], some .BadWins)
  else
    let bad_team := get_bad_team info.players
    match get_guesser info.players with
    | none => ([], none)
    | some guesser =>
      let evs := [GameEvent.BadLastChance bad_team guesser]
      match merlinGuess with
      | none => (evs, none)
      | some guess =>
        match find_role_safe info.players .Merlin with
        | none => (evs, none)
        | some merlin =>
          let evs := evs ++ [GameEvent.Merlin merlin]
          if guess = merlin then
            (evs ++ [GameEvent.GameResult .BadWins], some .BadWins)
          else
            (evs ++ [GameEvent.GameResult .GoodWins], some .GoodWins)

/-- The outer `while self.calc_winner() == None` loop of `Game::start`. -/
def runLoop (currentMission numPlayers : Nat) (merlinGuess : Option Nat)
    (info : GameInfo) :
    List TurnInput → List GameEvent × Option GameResult
  | [] =>
    match calc_winner info.missions with
    | some w => endPhase info merlinGuess w
    | none => ([], none)
  | ti :: rest =>
    match calc_winner info.missions with
    | some w => endPhase info merlinGuess w
    | none =>
      match runIteration currentMission numPlayers info ti with
      | (evs, .ended r) => (evs, some r)
      | (evs, .aborted) => (evs, none)
      | (evs, .cont info2) =>
        let r := runLoop currentMission numPlayers merlinGuess info2 rest
        (evs ++ r.1, r.2)

/-- `Game::start` from game.rs: `current_mission` and `number_of_players` are
captured once before the loop. -/
def Game.start (info : GameInfo) (script : List TurnInput)
    (merlinGuess : Option Nat) : List GameEvent × Option GameResult :=
  let currentMission := info.missions.length + 1
  let numPlayers := info.players.length
  runLoop currentMission numPlayers merlinGuess info script

/-! ## Helper predicates and lemmas -/

/-- Recognizer for `MissionResult` events. -/
def isMissionResultEvent : GameEvent → Bool
  | .MissionResult _ => true
  | _ => false

/-- Recognizer for `TeamRejected` events. -/
def isTeamRejectedEvent : GameEvent → Bool
  | .TeamRejected _ => true
  | _ => false

/-- Recognizer for `Mermaid` (clairvoyance-turn) events. -/
def isMermaidEvent : GameEvent → Bool
  | .Mermaid _ => true
  | _ => false

/-- `usize` wrapping decrement agrees with `Nat` subtraction on `[1, 2^64)`. -/
lemma usize_dec_eq (n : Nat) (h1 : 1 ≤ n) :
    wrapping_sub1 n = n - 1 := by
  cases n with
  | zero => omega
  | succ m => rfl

/-- `default_team` succeeds exactly for 2–7 players. -/
lemma default_team_isSome (n : Nat) :
    (default_team n).isSome ↔ 2 ≤ n ∧ n ≤ 7 := by
  unfold default_team
  split_ifs <;> simp_all <;> omega

/-- Each `default_team` table row has as many roles as players. -/
lemma default_team_length (n : Nat) (l : List Role)
    (h : default_team n = some l) : l.length = n := by
  unfold default_team at h
  split_ifs at h <;> simp_all <;> subst h <;> rfl

/-- `calc_prev_id` is the cyclic predecessor `(id + n - 1) % n` on `[0, n)`. -/
lemma calc_prev_id_eq (id n : Nat) (h : id < n) :
    calc_prev_id id n = (id + n - 1) % n := by
  unfold calc_prev_id
  have e1 : ((id : Int) - 1) % (n : Int) =
      ((id : Int) - 1 + (n : Int) * 1) % (n : Int) :=
    (Int.add_mul_emod_self_left _ _ _).symm
  have e2 : (id : Int) - 1 + (n : Int) * 1 = ((id + n - 1 : Nat) : Int) := by
    omega
  rw [e1, e2, ← Int.natCast_mod]
  omega

/-! ## C6: winner rule -/

/-- C6: for any mission-outcome sequence, `calc_winner` returns `BadWins`
exactly when at least 3 fails have been recorded, `GoodWins` exactly when
fewer than 3 fails but at least 3 successes have been recorded, and `none`
(undetermined) otherwise; in particular `[] -> none`,
`[S,S,S] -> GoodWins`, `[F,F,F] -> BadWins`, `[F,S,F,S,F] -> BadWins`.
Since the driver appends one outcome at a time and stops the moment a winner
exists, "the first time fails (successes) reach 3" is exactly the
count-based condition proved here. -/
theorem calc_winner_spec : ∀ votes : List MissionVote,
    (calc_winner votes = some GameResult.BadWins ↔ 3 ≤ fails_count votes) ∧
    (calc_winner votes = some GameResult.GoodWins ↔
      fails_count votes < 3 ∧ 3 ≤ votes.length - fails_count votes) ∧
    (calc_winner votes = none ↔
      fails_count votes < 3 ∧ votes.length - fails_count votes < 3) ∧
    calc_winner [] = none ∧
    calc_winner [.Success, .Success, .Success] = some .GoodWins ∧
    calc_winner [.Fail, .Fail, .Fail] = some .BadWins ∧
    calc_winner [.Fail, .Success, .Fail, .Success, .Fail] = some .BadWins := by
  intro votes
  refine ⟨?_, ?_, ?_, by decide, by decide, by decide, by decide⟩ <;>
    · simp only [calc_winner]
      split_ifs <;> simp_all <;> omega

/-! ## C4: team-size lookup -/

/-- C4 counterexample: the claim says every input outside missions 1–5 with
player counts 5–10 yields `None` ("unsupported") without failing, but the
lookup returns a table entry for 2 players (mission 1, 2 players gives
`Some 1`) and panics with an out-of-bounds index for mission 6 at 5 players
(the `mission > 5` guard is checked after the decrement, admitting row
index 5 of a 5-row table). -/
theorem get_expected_team_size_cex :
    get_expected_team_size 1 2 = .found 1 ∧
    get_expected_team_size 6 5 = .panicked := by
  constructor <;> rfl

/-- C4 amended: the lookup returns the fixed table entry for mission numbers
1–5 at player counts 2–10 (matching the reference table, e.g. mission 1 at 7
players gives 2 and mission 4 at 7 players gives 4); it returns
"unsupported" for mission numbers ≥ 7 and for player counts 0 or ≥ 11 (at
mission numbers 1–6); but it is not total in the claimed sense: mission 6
(any player count 1–10) and player count 1 (any mission 1–6) make it panic
on an out-of-range index instead of returning "unsupported". -/
theorem get_expected_team_size_spec :
    (∀ mission players, 1 ≤ mission → mission ≤ 5 → 2 ≤ players →
      players ≤ 10 → ∃ v, get_expected_team_size mission players = .found v) ∧
    get_expected_team_size 1 7 = .found 2 ∧
    get_expected_team_size 4 7 = .found 4 ∧
    (∀ mission players, 7 ≤ mission → mission < 2 ^ 64 →
      get_expected_team_size mission players = .unsupported) ∧
    (∀ mission players, 1 ≤ mission → mission ≤ 6 →
      (players = 0 ∨ 11 ≤ players) →
      get_expected_team_size mission players = .unsupported) ∧
    (∀ players, 1 ≤ players → players ≤ 10 →
      get_expected_team_size 6 players = .panicked) ∧
    (∀ mission, 1 ≤ mission → mission ≤ 6 →
      get_expected_team_size mission 1 = .panicked) := by
  refine ⟨?_, rfl, rfl, ?_, ?_, ?_, ?_⟩
  · intro mission players h1 h2 h3 h4
    interval_cases mission <;> interval_cases players <;> exact ⟨_, rfl⟩
  · intro mission players h1 h2
    unfold get_expected_team_size
    rw [usize_dec_eq mission (by omega)]
    rw [if_pos (by omega)]
  · intro mission players h1 h2 h3
    unfold get_expected_team_size
    rw [usize_dec_eq mission (by omega)]
    rw [if_neg (by omega), if_pos (by omega)]
  · intro players h1 h2
    interval_cases players <;> rfl
  · intro mission h1 h2
    interval_cases mission <;> rfl

/-- C4 amended, witness: a found entry at (2, 6), an unsupported mission 7,
and the two panic families at concrete inputs. -/
theorem get_expected_team_size_spec_witness :
    (∃ v, get_expected_team_size 2 6 = LookupResult.found v) ∧
    get_expected_team_size 7 5 = .unsupported ∧
    get_expected_team_size 3 12 = .unsupported ∧
    get_expected_team_size 6 5 = .panicked ∧
    get_expected_team_size 3 1 = .panicked :=
  ⟨get_expected_team_size_spec.1 2 6 (by norm_num) (by norm_num) (by norm_num)
      (by norm_num),
   get_expected_team_size_spec.2.2.2.1 7 5 (by norm_num) (by norm_num),
   get_expected_team_size_spec.2.2.2.2.1 3 12 (by norm_num) (by norm_num)
      (Or.inr (by norm_num)),
   get_expected_team_size_spec.2.2.2.2.2.1 5 (by norm_num) (by norm_num),
   get_expected_team_size_spec.2.2.2.2.2.2 3 (by norm_num) (by norm_num)⟩

/-! ## C3: setup and role table -/

/-- C3 counterexample: the claim says game setup succeeds for every player
count N in [5, 10], but `default_team` (and hence `Game::setup`) panics for
8 players — the role table only covers 2–7 players. -/
theorem setup_fails_for_eight :
    default_team 8 = none ∧ setup_info 8 0 id = none :=
  ⟨rfl, rfl⟩

/-- C3 amended: setup succeeds exactly for player counts N in [2, 7] (so on
the claimed range only for 5–7); when it succeeds the players receive
exactly the canonical role multiset for N (the fixed `default_team` row,
permuted by the one-time shuffle) and the record starts with no missions, no
current team and expected team size 0; for N in [8, 10] setup panics. -/
theorem setup_role_table_spec : ∀ n crown perm,
    ((setup_info n crown perm).isSome ↔ 2 ≤ n ∧ n ≤ 7) ∧
    default_team 5 =
      some [.Merlin, .Good, .Good2, .Mordred, .Morgen] ∧
    default_team 6 =
      some [.Merlin, .Percival, .Good, .Good2, .Mordred, .Morgen] ∧
    default_team 7 =
      some [.Merlin, .Percival, .Good, .Good2, .Mordred, .Morgen, .Oberon] ∧
    (∀ info team, setup_info n crown perm = some info →
      default_team n = some team → (perm team).Perm team →
      info.players.Perm team ∧ info.players.length = n ∧
      info.crown_id = crown ∧ info.mermaid_id = calc_prev_id crown n ∧
      info.missions = [] ∧ info.expected_team_size = 0 ∧
      info.current_team = []) := by
  intro n crown perm
  refine ⟨?_, rfl, rfl, rfl, ?_⟩
  · unfold setup_info
    rw [← default_team_isSome]
    cases h : default_team n <;> simp
  · intro info team hsetup hteam hperm
    unfold setup_info at hsetup
    rw [hteam] at hsetup
    cases hsetup
    refine ⟨hperm, ?_, rfl, rfl, rfl, rfl, rfl⟩
    rw [hperm.length_eq]
    exact default_team_length n team hteam

/-- C3 amended, witness at N = 5, crown 0, identity shuffle. -/
theorem setup_role_table_spec_witness :
    ([Role.Merlin, .Good, .Good2, .Mordred, .Morgen] : List Role).Perm
      [Role.Merlin, .Good, .Good2, .Mordred, .Morgen] ∧
    ([Role.Merlin, .Good, .Good2, .Mordred, .Morgen] : List Role).length = 5 ∧
    (0 : Nat) = 0 ∧ (4 : Nat) = calc_prev_id 0 5 ∧
    ([] : List MissionVote) = [] ∧ (0 : Nat) = 0 ∧ ([] : List Nat) = [] :=
  (setup_role_table_spec 5 0 id).2.2.2.2
    { players := [.Merlin, .Good, .Good2, .Mordred, .Morgen]
      expected_team_size := 0
      current_team := []
      mermaid_id := 4
      crown_id := 0
      missions := [] }
    [.Merlin, .Good, .Good2, .Mordred, .Morgen]
    (by decide) rfl (List.Perm.refl _)

/-! ## C10: initial mermaid holder -/

/-- C10: at setup the initial mermaid (clairvoyance) holder is the cyclic
predecessor of the initial crown holder: `mermaid_id = (crown_id - 1) mod N`
(computed by `calc_prev_id` via `rem_euclid`), both ids lie in `[0, N)`, and
they differ whenever `N > 1` (every successful setup has `N ≥ 2`). -/
theorem mermaid_prev_of_crown : ∀ n crown perm info, crown < n →
    setup_info n crown perm = some info →
    info.mermaid_id = (crown + n - 1) % n ∧ info.mermaid_id < n ∧
    info.crown_id = crown ∧ info.crown_id < n ∧
    (1 < n → info.mermaid_id ≠ info.crown_id) := by
  intro n crown perm info hcrown hsetup
  have hn : 0 < n := by omega
  have hm : info.mermaid_id = calc_prev_id crown n ∧ info.crown_id = crown := by
    unfold setup_info at hsetup
    cases h : default_team n <;> rw [h] at hsetup
    · cases hsetup
    · cases hsetup
      exact ⟨rfl, rfl⟩
  have he : calc_prev_id crown n = (crown + n - 1) % n :=
    calc_prev_id_eq crown n hcrown
  have hlt : (crown + n - 1) % n < n := Nat.mod_lt _ hn
  refine ⟨hm.1.trans he, ?_, hm.2, by omega, ?_⟩
  · rw [hm.1, he]; exact hlt
  · intro h1 hcontra
    rw [hm.1, he, hm.2] at hcontra
    rcases Nat.eq_zero_or_pos crown with h0 | h0
    · subst h0
      rw [Nat.mod_eq_of_lt (by omega)] at hcontra
      omega
    · have : crown + n - 1 = (crown - 1) + n := by omega
      rw [this, Nat.add_mod_right, Nat.mod_eq_of_lt (by omega)] at hcontra
      omega

/-- C10 witness at N = 5, crown 3: the mermaid starts at 2. -/
theorem mermaid_prev_of_crown_witness :
    ({ players := [Role.Merlin, .Good, .Good2, .Mordred, .Morgen]
       expected_team_size := 0
       current_team := []
       mermaid_id := 2
       crown_id := 3
       missions := [] } : GameInfo).mermaid_id = (3 + 5 - 1) % 5 ∧
    (2 : Nat) < 5 ∧ (3 : Nat) = 3 ∧ (3 : Nat) < 5 ∧
    (1 < 5 → (2 : Nat) ≠ 3) := by
  have h := mermaid_prev_of_crown 5 3 id
    { players := [.Merlin, .Good, .Good2, .Mordred, .Morgen]
      expected_team_size := 0
      current_team := []
      mermaid_id := 2
      crown_id := 3
      missions := [] }
    (by decide) (by decide)
  exact h

/-! ## C8: team-vote slot buffer -/

/-- Equation for `add_team_vote` when the buffer still has an empty slot. -/
lemma add_team_vote_incomplete (votes : List (Option TeamVote)) (fromId : Nat)
    (vote : TeamVote) (h : fromId < votes.length)
    (hc : (votes.set fromId (some vote)).contains (none : Option TeamVote)
      = true) :
    add_team_vote votes fromId vote =
      some (votes.set fromId (some vote), none) := by
  simp only [add_team_vote, if_pos h, hc, if_true]

/-- Equation for `add_team_vote` when the write fills the last empty slot. -/
lemma add_team_vote_complete (votes : List (Option TeamVote)) (fromId : Nat)
    (vote : TeamVote) (h : fromId < votes.length)
    (hc : (votes.set fromId (some vote)).contains (none : Option TeamVote)
      = false) :
    add_team_vote votes fromId vote =
      some (List.replicate votes.length none,
            some ((votes.set fromId (some vote)).filterMap id)) := by
  simp only [add_team_vote, if_pos h, hc, if_false, Bool.false_eq_true,
    List.length_set]

/-- C8: `add_team_vote` writes into a per-player slot (last write wins): when
a first cast does not complete the batch, casting again for the same player
yields exactly the state of a single cast of the later vote; the ordered
batch is forwarded exactly when every slot is filled, and the buffer is then
reset to all-empty slots of the same length. -/
theorem add_team_vote_spec : ∀ votes fromId v1 v2, fromId < votes.length →
    (∀ votes1, add_team_vote votes fromId v1 = some (votes1, none) →
      add_team_vote votes1 fromId v2 = add_team_vote votes fromId v2) ∧
    (∀ st sent, add_team_vote votes fromId v2 = some (st, sent) →
      (sent.isSome ↔
        (votes.set fromId (some v2)).contains (none : Option TeamVote)
          = false) ∧
      (∀ batch, sent = some batch →
        batch = (votes.set fromId (some v2)).filterMap id ∧
        st = List.replicate votes.length none)) := by
  intro votes fromId v1 v2 hlt
  constructor
  · intro votes1 h1
    by_cases hc :
        (votes.set fromId (some v1)).contains (none : Option TeamVote) = true
    · rw [add_team_vote_incomplete votes fromId v1 hlt hc] at h1
      have hv1 : votes1 = votes.set fromId (some v1) := by
        have := Option.some.inj h1
        exact (congrArg Prod.fst this).symm
      subst hv1
      have hlt1 : fromId < (votes.set fromId (some v1)).length := by
        simpa using hlt
      have key : (votes.set fromId (some v1)).set fromId (some v2) =
          votes.set fromId (some v2) := List.set_set (some v1) (some v2) votes fromId
      by_cases hc2 :
          (votes.set fromId (some v2)).contains (none : Option TeamVote) = true
      · rw [add_team_vote_incomplete _ fromId v2 hlt1 (by rw [key]; exact hc2),
            add_team_vote_incomplete votes fromId v2 hlt hc2, key]
      · have hc2' := Bool.eq_false_iff.mpr hc2
        rw [add_team_vote_complete _ fromId v2 hlt1 (by rw [key]; exact hc2'),
            add_team_vote_complete votes fromId v2 hlt hc2', key,
            List.length_set]
    · have hc' := Bool.eq_false_iff.mpr hc
      rw [add_team_vote_complete votes fromId v1 hlt hc'] at h1
      have := congrArg Prod.snd (Option.some.inj h1)
      simp at this
  · intro st sent h2
    by_cases hc :
        (votes.set fromId (some v2)).contains (none : Option TeamVote) = true
    · rw [add_team_vote_incomplete votes fromId v2 hlt hc] at h2
      have h2' := Option.some.inj h2
      have hst := congrArg Prod.fst h2'
      have hsent := congrArg Prod.snd h2'
      simp only at hst hsent
      refine ⟨?_, ?_⟩
      · rw [← hsent]
        simp [hc]
      · intro batch hbatch
        rw [← hsent] at hbatch
        exact absurd hbatch (by simp)
    · have hc' := Bool.eq_false_iff.mpr hc
      rw [add_team_vote_complete votes fromId v2 hlt hc'] at h2
      have h2' := Option.some.inj h2
      have hst := congrArg Prod.fst h2'
      have hsent := congrArg Prod.snd h2'
      simp only at hst hsent
      refine ⟨?_, ?_⟩
      · rw [← hsent]
        simp [hc']
      · intro batch hbatch
        rw [← hsent] at hbatch
        have := Option.some.inj hbatch
        exact ⟨this.symm, hst.symm⟩

/-- C8 witness: in a 2-slot buffer, after player 0 casts Approve (batch not
complete), casting Reject for player 0 gives the same result as a single
Reject cast on the fresh buffer. -/
theorem add_team_vote_spec_witness :
    add_team_vote [some TeamVote.Approve, none] 0 TeamVote.Reject =
      add_team_vote [none, none] 0 TeamVote.Reject :=
  (add_team_vote_spec [none, none] 0 TeamVote.Approve TeamVote.Reject
    (by decide)).1 [some TeamVote.Approve, none] (by decide)

/-! ## C9: facade errors are no-ops -/

/-- C9: `suggest_team` returns an error exactly when the caller is not the
crown holder or the team has the wrong size, and `submit_for_mission`
returns an error exactly when the caller is not in the current team or is a
good-aligned player casting Fail (with a valid player index); in every error
case the call returns the state unchanged and forwards nothing to the
driver's channels. -/
theorem facade_errors_are_noops : ∀ st fromId team vote,
    ((∃ m, (suggest_team st fromId team).2 = .err m) ↔
      (fromId ≠ st.info.crown_id ∨
       team.length ≠ st.info.expected_team_size)) ∧
    (∀ m, (suggest_team st fromId team).2 = .err m →
      suggest_team st fromId team = (st, .err m)) ∧
    ((∃ m, (submit_for_mission st fromId vote).2 = .err m) ↔
      (fromId ∉ st.info.current_team ∨
       ∃ r, st.info.players[fromId]? = some r ∧ r.is_good ∧
         vote = .Fail)) ∧
    (∀ m, (submit_for_mission st fromId vote).2 = .err m →
      submit_for_mission st fromId vote = (st, .err m)) := by
  intro st fromId team vote
  refine ⟨?_, ?_, ?_, ?_⟩
  · unfold suggest_team
    split_ifs <;> simp_all
  · intro m
    unfold suggest_team
    split_ifs <;> simp_all
  · by_cases hmem : fromId ∈ st.info.current_team
    · cases hget : st.info.players[fromId]? with
      | none =>
        simp [submit_for_mission, if_pos hmem, hget, hmem]
      | some r =>
        by_cases hg : r.is_good = true ∧ vote = MissionVote.Fail
        · simp only [submit_for_mission, if_pos hmem, hget, if_pos hg]
          simp [hmem, hget]
          exact hg
        · simp only [submit_for_mission, if_pos hmem, hget, if_neg hg]
          split_ifs with hlen <;>
            · simp [hmem, hget]
              exact fun hgood hv => hg ⟨hgood, hv⟩
    · simp [submit_for_mission, if_neg hmem, hmem]
  · intro m
    by_cases hmem : fromId ∈ st.info.current_team
    · cases hget : st.info.players[fromId]? with
      | none =>
        simp only [submit_for_mission, if_pos hmem, hget]
        intro h
        simp at h
      | some r =>
        by_cases hg : r.is_good = true ∧ vote = MissionVote.Fail
        · simp only [submit_for_mission, if_pos hmem, hget, if_pos hg]
          intro h
          injection h with hmsg
          rw [← hmsg]
        · simp only [submit_for_mission, if_pos hmem, hget, if_neg hg]
          split_ifs with hlen <;>
            · intro h
              simp at h
    · simp only [submit_for_mission, if_neg hmem]
      intro h
      injection h with hmsg
      rw [← hmsg]

/-- C9 witness: with crown holder 0 and expected size 2, player 1 suggesting
an empty team errors and the call leaves the state unchanged; a good team
member casting Fail errors likewise. -/
theorem facade_errors_are_noops_witness :
    suggest_team
      ⟨{ players := [Role.Bad, Role.Good], expected_team_size := 2,
         current_team := [0, 1], mermaid_id := 0, crown_id := 0,
         missions := [] }, [], []⟩ 1 [] =
      (⟨{ players := [Role.Bad, Role.Good], expected_team_size := 2,
          current_team := [0, 1], mermaid_id := 0, crown_id := 0,
          missions := [] }, [], []⟩,
       .err "Teammate can only be added by crown holder") ∧
    submit_for_mission
      ⟨{ players := [Role.Bad, Role.Good], expected_team_size := 2,
         current_team := [0, 1], mermaid_id := 0, crown_id := 0,
         missions := [] }, [], []⟩ 1 MissionVote.Fail =
      (⟨{ players := [Role.Bad, Role.Good], expected_team_size := 2,
          current_team := [0, 1], mermaid_id := 0, crown_id := 0,
          missions := [] }, [], []⟩,
       .err "Good player could vote only with Success") :=
  ⟨(facade_errors_are_noops _ 1 [] MissionVote.Fail).2.1 _ (by decide),
   (facade_errors_are_noops
      ⟨{ players := [Role.Bad, Role.Good], expected_team_size := 2,
         current_team := [0, 1], mermaid_id := 0, crown_id := 0,
         missions := [] }, [], []⟩ 1 [] MissionVote.Fail).2.2.2 _ (by decide)⟩

/-! ## C5: mission-vote batching -/

/-- A concrete client state: bad player 0 and good player 1 form the current
team, expected team size 2, no pending votes. -/
def twoTeamState : ClientState :=
  ⟨{ players := [Role.Bad, Role.Good], expected_team_size := 2,
     current_team := [0, 1], mermaid_id := 0, crown_id := 0,
     missions := [] }, [], []⟩

/-- C5 counterexample: the pending mission-vote buffer has no per-player
slot, so team member 0 submitting twice before the batch completes
contributes both votes of the 2-vote batch that is forwarded to the driver
(player 1 never voted): the claim that a second submission cannot contribute
two votes to the same mission's batch is false. -/
theorem submit_for_mission_double_cex :
    submit_for_mission twoTeamState 0 MissionVote.Fail =
      ({ twoTeamState with mission_votes := [MissionVote.Fail] },
       .ok none) ∧
    submit_for_mission
        { twoTeamState with mission_votes := [MissionVote.Fail] } 0
        MissionVote.Fail =
      ({ twoTeamState with mission_votes := [] },
       .ok (some [MissionVote.Fail, MissionVote.Fail])) := by
  constructor <;> rfl

/-- C5 amended: `submit_for_mission` accumulates votes by appending to an
anonymous list: every legal submission (member of the current team, valid
player index, not a good player casting Fail) appends exactly one vote
regardless of who already voted, and the batch is forwarded exactly when its
length reaches `expected_team_size`, then cleared — so one member may
contribute several votes to the same batch. -/
theorem submit_for_mission_appends : ∀ st fromId vote r,
    fromId ∈ st.info.current_team →
    st.info.players[fromId]? = some r →
    (r.is_good = true → vote ≠ MissionVote.Fail) →
    submit_for_mission st fromId vote =
      (if st.info.expected_team_size = st.mission_votes.length + 1 then
        ({ st with mission_votes := [] },
         .ok (some (st.mission_votes ++ [vote])))
      else
        ({ st with mission_votes := st.mission_votes ++ [vote] },
         .ok none)) := by
  intro st fromId vote r hmem hget hrole
  have hg : ¬(r.is_good = true ∧ vote = MissionVote.Fail) := by
    rintro ⟨h1, h2⟩
    exact hrole h1 h2
  simp only [submit_for_mission, if_pos hmem, hget, if_neg hg,
    List.length_append, List.length_cons, List.length_nil]

/-- C5 amended, witness: good player 1 legally submitting Success appends
one vote without completing the 2-vote batch. -/
theorem submit_for_mission_appends_witness :
    submit_for_mission twoTeamState 1 MissionVote.Success =
      ({ twoTeamState with mission_votes := [MissionVote.Success] },
       .ok none) :=
  (submit_for_mission_appends twoTeamState 1 MissionVote.Success Role.Good
    (by decide) (by decide) (by decide)).trans (by decide)

/-! ## C2: mission outcome rule -/

/-- A directly constructed 9-player record (note: `Game::setup` itself cannot
build one — see the C3 analysis — but `calc_mission_result` and the driver
loop are defined for it). -/
def nineInfo : GameInfo :=
  { players := [.Merlin, .Percival, .Good, .Good2, .Mordred, .Morgen,
                .Oberon, .Bad, .Bad]
    expected_team_size := 0
    current_team := []
    mermaid_id := 8
    crown_id := 0
    missions := [] }

/-- One unanimously approved turn for a 9-player game with the given mission
votes. -/
def nineTurn (mv : List MissionVote) : TurnInput :=
  { attempts := [([0, 1, 2], List.replicate 9 TeamVote.Approve)]
    missionVotes := mv
    mermaidSelection := 0
    mermaidWord := .Good }

/-- A 9-player script reaching the fifth mission (0-based index 4) with a
batch holding exactly one Fail vote. -/
def nineScript : List TurnInput :=
  [nineTurn [.Success, .Success, .Success],
   nineTurn [.Success, .Success, .Success, .Success],
   nineTurn [.Fail, .Success, .Success, .Success],
   nineTurn [.Fail, .Success, .Success, .Success, .Success],
   nineTurn [.Fail, .Success, .Success, .Success, .Success]]

/-- C2 counterexample: with 9 players the mission whose 0-based index is 4
is the driver's mission number 5 (`current_mission = missions.len() + 1`),
and `calc_mission_result 5 9` records Fail for a single-Fail batch — the
claimed two-Fail threshold would record Success. End to end: after
[S, S, F, F] the fifth mission's single-Fail batch is recorded as the third
Fail and the game ends BadWins (the claim's rule would instead give a third
Success and GoodWins), because `Game::start` evaluates every mission with
the mission number captured before its loop (here 1). -/
theorem calc_mission_result_cex :
    calc_mission_result 5 9
      [.Fail, .Success, .Success, .Success, .Success] = .Fail ∧
    calc_mission_result 1 9
      [.Fail, .Success, .Success, .Success, .Success] = .Fail ∧
    (Game.start nineInfo nineScript none).2 = some GameResult.BadWins := by
  refine ⟨rfl, rfl, ?_⟩
  decide

/-- C2 amended: `calc_mission_result` records Fail iff the batch holds at
least one Fail vote, except when its mission parameter equals 4 (under the
driver's convention `mission = missions.len() + 1`, the mission with 0-based
index 3) with more than 7 players, where at least two Fail votes are needed;
and `Game::start` captures the mission number once before its loop, so every
mission of a run is evaluated with the initial mission number
(`missions.len() + 1` at entry, i.e. 1 for a fresh game) and the exception
is never exercised. -/
theorem calc_mission_result_spec :
    (∀ mission players mv, ¬(7 < players ∧ mission = 4) →
      (calc_mission_result mission players mv = .Fail ↔
        1 ≤ fails_count mv)) ∧
    (∀ players mv, 7 < players →
      (calc_mission_result 4 players mv = .Fail ↔ 2 ≤ fails_count mv)) ∧
    (∀ info script mg, Game.start info script mg =
      runLoop (info.missions.length + 1) info.players.length mg info
        script) := by
  refine ⟨?_, ?_, ?_⟩
  · intro mission players mv h
    simp only [calc_mission_result, if_neg h]
    split_ifs with h0 <;> simp_all <;> omega
  · intro players mv h
    simp only [calc_mission_result, if_pos (And.intro h rfl)]
    split_ifs with h0 <;> simp_all <;> omega
  · intro info script mg
    rfl

/-- C2 amended, witness: a single Fail fails mission 1 of a 9-player game;
the mission-4 exception needs two Fails; the driver equation at the
counterexample run. -/
theorem calc_mission_result_spec_witness :
    calc_mission_result 1 9 [MissionVote.Fail] = .Fail ∧
    (calc_mission_result 4 9 [MissionVote.Fail] = .Fail ↔
      2 ≤ fails_count [MissionVote.Fail]) ∧
    Game.start nineInfo nineScript none =
      runLoop 1 9 none nineInfo nineScript :=
  ⟨(calc_mission_result_spec.1 1 9 [MissionVote.Fail] (by decide)).mpr
      (by decide),
   calc_mission_result_spec.2.1 9 [MissionVote.Fail] (by decide),
   calc_mission_result_spec.2.2 nineInfo nineScript none⟩

/-! ## Driver-loop lemmas -/

/-- Case analysis of one suggestion-loop pass: the step leaves `mermaid_id`,
`missions` and `players` untouched, an approved exit keeps the counter, a
spiral exit increments it to at least 5, a continuation increments it below
5, and the emitted events are only `Turn`, `TeamSuggested`, `TeamVote`,
`TeamApproved` and `TeamRejected`. -/
lemma runAttemptsStep_cases (info : GameInfo) (tc : Nat)
    (a : List Nat × List TeamVote) :
    (∀ i1 tc1 ex, (runAttemptsStep info tc a).2 = .exitLoop i1 tc1 ex →
      i1.mermaid_id = info.mermaid_id ∧ i1.missions = info.missions ∧
      i1.players = info.players ∧
      (ex = LoopExit.spiral → tc1 = tc + 1 ∧ 5 ≤ tc1) ∧
      (ex = LoopExit.approved → tc1 = tc)) ∧
    (∀ i2 t2, (runAttemptsStep info tc a).2 = .next i2 t2 →
      i2.mermaid_id = info.mermaid_id ∧ i2.missions = info.missions ∧
      i2.players = info.players ∧ t2 = tc + 1 ∧ t2 < 5) ∧
    (∀ x, GameEvent.Mermaid x ∉ (runAttemptsStep info tc a).1) ∧
    (∀ mv, GameEvent.MissionResult mv ∉ (runAttemptsStep info tc a).1) := by
  unfold runAttemptsStep
  split
  · split_ifs with happ hfive
    · refine ⟨?_, ?_, ?_, ?_⟩
      · intro i1 tc1 ex h
        injection h with h1 h2 h3
        subst h1
        subst h3
        exact ⟨rfl, rfl, rfl, by simp, fun _ => h2.symm⟩
      · intro i2 t2 h
        cases h
      · intro x
        simp
      · intro mv
        simp
    · refine ⟨?_, ?_, ?_, ?_⟩
      · intro i1 tc1 ex h
        injection h with h1 h2 h3
        subst h1
        subst h3
        refine ⟨rfl, rfl, rfl, fun _ => ⟨h2.symm, ?_⟩, fun hx => ?_⟩
        · simp only [MAX_TRY_COUNT] at hfive
          omega
        · cases hx
      · intro i2 t2 h
        cases h
      · intro x
        simp
      · intro mv
        simp
    · refine ⟨?_, ?_, ?_, ?_⟩
      · intro i1 tc1 ex h
        cases h
      · intro i2 t2 h
        injection h with h1 h2
        subst h1
        refine ⟨rfl, rfl, rfl, h2.symm, ?_⟩
        simp only [MAX_TRY_COUNT] at hfive
        omega
      · intro x
        simp
      · intro mv
        simp
  · refine ⟨?_, ?_, ?_, ?_⟩
    · intro i1 tc1 ex h
      cases h
    · intro i2 t2 h
      cases h
    · intro x
      simp
    · intro mv
      simp

/-- The suggestion loop leaves `mermaid_id`, `missions` and `players`
untouched; starting from a try counter at most 4, a spiral exit carries
exactly counter value 5 and an approved exit carries at most 4. -/
lemma runAttempts_inv : ∀ (atts : List (List Nat × List TeamVote))
    (info : GameInfo) (tc0 : Nat), tc0 ≤ 4 →
    ∀ i1 tc ex, (runAttempts info tc0 atts).2 = some (i1, tc, ex) →
    i1.mermaid_id = info.mermaid_id ∧ i1.missions = info.missions ∧
    i1.players = info.players ∧
    (ex = LoopExit.spiral → tc = 5) ∧ (ex = LoopExit.approved → tc ≤ 4) := by
  intro atts
  induction atts with
  | nil =>
    intro info tc0 h i1 tc ex hr
    simp [runAttempts] at hr
  | cons a rest ih =>
    intro info tc0 h i1 tc ex hr
    have hstep := runAttemptsStep_cases info tc0 a
    simp only [runAttempts] at hr
    cases hs : runAttemptsStep info tc0 a with
    | mk evs sres =>
      rw [hs] at hr
      cases sres with
      | abort =>
        simp at hr
      | exitLoop j1 jtc jex =>
        simp only at hr
        have hr2 := Option.some.inj hr
        have hfacts := hstep.1 j1 jtc jex (by rw [hs])
        have e1 : j1 = i1 := congrArg Prod.fst hr2
        have e2 : jtc = tc := congrArg (fun p => p.2.1) hr2
        have e3 : jex = ex := congrArg (fun p => p.2.2) hr2
        subst e1
        subst e2
        subst e3
        refine ⟨hfacts.1, hfacts.2.1, hfacts.2.2.1, fun hsp => ?_,
          fun hap => ?_⟩
        · obtain ⟨he, hge⟩ := hfacts.2.2.2.1 hsp
          omega
        · have := hfacts.2.2.2.2 hap
          omega
      | next i2 t2 =>
        simp only at hr
        have hfacts := hstep.2.1 i2 t2 (by rw [hs])
        have := ih i2 t2 (by omega) i1 tc ex hr
        exact ⟨this.1.trans hfacts.1, this.2.1.trans hfacts.2.1,
          this.2.2.1.trans hfacts.2.2.1, this.2.2.2.1, this.2.2.2.2⟩

/-- The suggestion loop emits no `Mermaid` and no `MissionResult` events. -/
lemma runAttempts_no_phase_events : ∀ (atts : List (List Nat × List TeamVote))
    (info : GameInfo) (tc0 : Nat),
    (∀ x, GameEvent.Mermaid x ∉ (runAttempts info tc0 atts).1) ∧
    (∀ mv, GameEvent.MissionResult mv ∉ (runAttempts info tc0 atts).1) := by
  intro atts
  induction atts with
  | nil =>
    intro info tc0
    simp [runAttempts]
  | cons a rest ih =>
    intro info tc0
    have hstep := runAttemptsStep_cases info tc0 a
    simp only [runAttempts]
    cases hs : runAttemptsStep info tc0 a with
    | mk evs sres =>
      have hm : ∀ x, GameEvent.Mermaid x ∉ evs := by
        intro x
        have := hstep.2.2.1 x
        rw [hs] at this
        exact this
      have hmr : ∀ mv, GameEvent.MissionResult mv ∉ evs := by
        intro mv
        have := hstep.2.2.2 mv
        rw [hs] at this
        exact this
      cases sres with
      | abort => exact ⟨hm, hmr⟩
      | exitLoop j1 jtc jex => exact ⟨hm, hmr⟩
      | next i2 t2 =>
        simp only [List.mem_append]
        constructor
        · intro x hx
          rcases hx with hx | hx
          · exact hm x hx
          · exact (ih i2 t2).1 x hx
        · intro mv hx
          rcases hx with hx | hx
          · exact hmr mv hx
          · exact (ih i2 t2).2 mv hx

/-- Spiral characterization of the suggestion loop: starting the try counter
at `tc0 ∈ [1, 4]` with a working team-size lookup, the loop exits through the
reject spiral (counter value 5) exactly when its first `5 - tc0` vote batches
all reject. -/
lemma runAttempts_spiral_iff : ∀ (atts : List (List Nat × List TeamVote))
    (info : GameInfo) (tc0 sz : Nat),
    get_expected_team_size (info.missions.length + 1) info.players.length =
      LookupResult.found sz →
    1 ≤ tc0 → tc0 ≤ 4 →
    ((∃ i1, (runAttempts info tc0 atts).2 = some (i1, 5, LoopExit.spiral)) ↔
      (5 - tc0 ≤ atts.length ∧
       ∀ a ∈ atts.take (5 - tc0), is_mission_approved a.2 = false)) := by
  intro atts
  induction atts with
  | nil =>
    intro info tc0 sz hlook h1 h4
    simp only [runAttempts]
    constructor
    · rintro ⟨i1, hi⟩
      cases hi
    · rintro ⟨hlen, _⟩
      simp at hlen
      omega
  | cons a rest ih =>
    intro info tc0 sz hlook h1 h4
    simp only [runAttempts]
    have htake : 5 - tc0 = (4 - tc0) + 1 := by omega
    by_cases happ : is_mission_approved a.2 = true
    · -- approved: no spiral exit through this pass
      have hs : runAttemptsStep info tc0 a =
          ([GameEvent.Turn info.crown_id sz, GameEvent.TeamSuggested a.1,
            GameEvent.TeamVote a.2, GameEvent.TeamApproved a.1],
           .exitLoop
             { info with
                expected_team_size := sz
                current_team := a.1
                crown_id := calc_next_id info.crown_id info.players.length }
             tc0 .approved) := by
        simp only [runAttemptsStep, hlook, if_pos happ]
      rw [hs]
      constructor
      · rintro ⟨i1, hi⟩
        simp only at hi
        have := congrArg (fun p => p.2.2) (Option.some.inj hi)
        cases this
      · rintro ⟨hlen, hall⟩
        have : is_mission_approved a.2 = false := by
          apply hall
          rw [htake, List.take_succ_cons]
          exact List.mem_cons_self _ _
        rw [happ] at this
        cases this
    · have happ' : is_mission_approved a.2 = false :=
        Bool.eq_false_iff.mpr happ
      by_cases hfour : tc0 = 4
      · -- fourth rejection: spiral exit now
        subst hfour
        have hs : runAttemptsStep info 4 a =
            ([GameEvent.Turn info.crown_id sz, GameEvent.TeamSuggested a.1,
              GameEvent.TeamVote a.2, GameEvent.TeamRejected 5],
             .exitLoop
               { info with
                  expected_team_size := sz
                  current_team := a.1 }
               5 .spiral) := by
          simp only [runAttemptsStep, hlook, if_neg happ,
            if_pos (by norm_num [MAX_TRY_COUNT] : MAX_TRY_COUNT ≤ 4 + 1)]
        rw [hs]
        constructor
        · intro _
          refine ⟨by simp, ?_⟩
          intro b hb
          simp at hb
          rw [hb]
          exact happ'
        · intro _
          exact ⟨_, rfl⟩
      · -- rejection with tc0 ≤ 3: continue with the rest
        have hs : runAttemptsStep info tc0 a =
            ([GameEvent.Turn info.crown_id sz, GameEvent.TeamSuggested a.1,
              GameEvent.TeamVote a.2, GameEvent.TeamRejected (tc0 + 1)],
             .next
               { info with
                  expected_team_size := sz
                  current_team := a.1
                  crown_id := calc_next_id info.crown_id info.players.length }
               (tc0 + 1)) := by
          simp only [runAttemptsStep, hlook, if_neg happ,
            if_neg (by simp only [MAX_TRY_COUNT]; omega :
              ¬MAX_TRY_COUNT ≤ tc0 + 1)]
        rw [hs]
        simp only
        have hih := ih
          { info with
             expected_team_size := sz
             current_team := a.1
             crown_id := calc_next_id info.crown_id info.players.length }
          (tc0 + 1) sz hlook (by omega) (by omega)
        have hstep5 : 5 - (tc0 + 1) = 4 - tc0 := by omega
        rw [hstep5] at hih
        rw [htake, List.take_succ_cons]
        constructor
        · rintro ⟨i1, hi⟩
          obtain ⟨hlen, hall⟩ := hih.mp ⟨i1, hi⟩
          refine ⟨by simp; omega, ?_⟩
          intro b hb
          rcases List.mem_cons.mp hb with hb | hb
          · rw [hb]
            exact happ'
          · exact hall b hb
        · rintro ⟨hlen, hall⟩
          have : 4 - tc0 ≤ rest.length := by
            simp at hlen
            omega
          obtain ⟨i1, hi⟩ := hih.mpr ⟨this, fun b hb =>
            hall b (List.mem_cons_of_mem _ hb)⟩
          exact ⟨i1, hi⟩

/-! ## C1: reject spiral -/

/-- A fresh 5-player game record (crown 0, mermaid 4). -/
def fiveInfo : GameInfo :=
  { players := [.Merlin, .Good, .Good2, .Mordred, .Morgen]
    expected_team_size := 0
    current_team := []
    mermaid_id := 4
    crown_id := 0
    missions := [] }

/-- One mission's worth of inputs in which every team suggestion is
unanimously rejected, four times. -/
def fourRejectTurn : TurnInput :=
  { attempts := List.replicate 4 ([0, 1], List.replicate 5 TeamVote.Reject)
    missionVotes := []
    mermaidSelection := 0
    mermaidWord := .Good }

/-- C1 counterexample: a 5-player run in which exactly 4 consecutive team
rejections occur ends the game as BadWins with no mission vote taken — the
try counter starts at 1 and is incremented per rejection, so it reaches
`MAX_TRY_COUNT = 5` after the 4th rejection, not the 5th; fewer than 5
consecutive rejections do end the game this way, contradicting the claim. -/
theorem reject_spiral_cex :
    (Game.start fiveInfo [fourRejectTurn] none).2 =
      some GameResult.BadWins ∧
    (Game.start fiveInfo [fourRejectTurn] none).1.countP
      isTeamRejectedEvent = 4 ∧
    (Game.start fiveInfo [fourRejectTurn] none).1.countP
      isMissionResultEvent = 0 := by
  refine ⟨?_, ?_, ?_⟩ <;> decide

/-- C1 amended: the per-mission try counter starts at 1 and is reset for
every mission (each iteration of the driver's outer loop runs the
suggestion loop with counter 1); team approval exits the loop with the
counter unchanged; and the game ends as BadWins with no mission vote ever
taken exactly when the first 4 team suggestions of one mission are all
rejected (the counter reaches `MAX_TRY_COUNT = 5` after 4 consecutive
rejections). -/
theorem reject_spiral_spec : ∀ (cm np : Nat) (mg : Option Nat)
    (info : GameInfo) (ti : TurnInput) (rest : List TurnInput) (sz : Nat),
    calc_winner info.missions = none →
    get_expected_team_size (info.missions.length + 1)
      info.players.length = LookupResult.found sz →
    ((∃ i1, (runAttempts info 1 ti.attempts).2 =
        some (i1, MAX_TRY_COUNT, LoopExit.spiral)) ↔
      (4 ≤ ti.attempts.length ∧
       ∀ a ∈ ti.attempts.take 4, is_mission_approved a.2 = false)) ∧
    (∀ i1, (runAttempts info 1 ti.attempts).2 =
        some (i1, MAX_TRY_COUNT, LoopExit.spiral) →
      runLoop cm np mg info (ti :: rest) =
        ((runAttempts info 1 ti.attempts).1 ++
          [GameEvent.GameResult GameResult.BadWins],
         some GameResult.BadWins) ∧
      ∀ mv, GameEvent.MissionResult mv ∉
        (runLoop cm np mg info (ti :: rest)).1) := by
  intro cm np mg info ti rest sz hwin hlook
  constructor
  · exact runAttempts_spiral_iff ti.attempts info 1 sz hlook
      (by norm_num) (by norm_num)
  · intro i1 hi
    have hiter : runIteration cm np info ti =
        ((runAttempts info 1 ti.attempts).1 ++
          [GameEvent.GameResult GameResult.BadWins],
         IterResult.ended GameResult.BadWins) := by
      simp [runIteration, hi]
    have hloop : runLoop cm np mg info (ti :: rest) =
        ((runAttempts info 1 ti.attempts).1 ++
          [GameEvent.GameResult GameResult.BadWins],
         some GameResult.BadWins) := by
      simp only [runLoop, hwin, hiter]
    refine ⟨hloop, ?_⟩
    intro mv
    rw [hloop]
    simp only [List.mem_append, List.mem_singleton]
    rintro (hmem | hmem)
    · exact (runAttempts_no_phase_events ti.attempts info 1).2 mv hmem
    · cases hmem

/-- The suggestion-loop state at the spiral exit of the counterexample run:
crown shifted three times, size-2 team recorded, counter at 5. -/
def fiveSpiralExit : GameInfo :=
  { players := [.Merlin, .Good, .Good2, .Mordred, .Morgen]
    expected_team_size := 2
    current_team := [0, 1]
    mermaid_id := 4
    crown_id := 3
    missions := [] }

/-- C1 amended, witness at the concrete 4-rejection run. -/
theorem reject_spiral_spec_witness :
    runLoop 1 5 none fiveInfo [fourRejectTurn] =
      ((runAttempts fiveInfo 1 fourRejectTurn.attempts).1 ++
        [GameEvent.GameResult GameResult.BadWins],
       some GameResult.BadWins) ∧
    GameEvent.MissionResult [] ∉
      (runLoop 1 5 none fiveInfo [fourRejectTurn]).1 :=
  have h := (reject_spiral_spec 1 5 none fiveInfo fourRejectTurn [] 2
    (by decide) (by decide)).2 fiveSpiralExit (by decide)
  ⟨h.1, h.2 []⟩

/-! ## C7: clairvoyance gating -/

/-- The endgame emits no `Mermaid` event. -/
lemma endPhase_no_mermaid (info : GameInfo) (mg : Option Nat)
    (w : GameResult) (x : Nat) :
    GameEvent.Mermaid x ∉ (endPhase info mg w).1 := by
  unfold endPhase
  split_ifs
  · simp
  · split
    · simp
    · split
      · simp
      · split
        · simp
        · split_ifs <;> simp

/-- One driver iteration emits a `Mermaid` event exactly when the suggestion
loop exits approved, the event names the current mermaid holder, at least 7
players are in the game, the just-completed mission index (1-based,
`missions.len() + 1` before the append) is strictly between 1 and 5, and the
outcome appended for this mission leaves the winner undetermined. -/
lemma runIteration_mermaid_iff : ∀ (cm np : Nat) (info : GameInfo)
    (ti : TurnInput) (x : Nat),
    GameEvent.Mermaid x ∈ (runIteration cm np info ti).1 ↔
    (∃ i1 tc, (runAttempts info 1 ti.attempts).2 =
        some (i1, tc, LoopExit.approved) ∧
      x = info.mermaid_id ∧ 7 ≤ np ∧ 1 < info.missions.length + 1 ∧
      info.missions.length + 1 < 5 ∧
      calc_winner (info.missions ++
        [calc_mission_result cm np ti.missionVotes]) = none) := by
  intro cm np info ti x
  have hnoA := (runAttempts_no_phase_events ti.attempts info 1).1 x
  cases ha : (runAttempts info 1 ti.attempts).2 with
  | none =>
    have hred : runIteration cm np info ti =
        ((runAttempts info 1 ti.attempts).1, IterResult.aborted) := by
      simp [runIteration, ha]
    rw [hred]
    constructor
    · intro hmem
      exact absurd hmem hnoA
    · rintro ⟨i1, tc, he, -⟩
      cases he
  | some trip =>
    obtain ⟨i1, tc, ex⟩ := trip
    have hinv := runAttempts_inv ti.attempts info 1 (by norm_num) i1 tc ex ha
    have hmer : i1.mermaid_id = info.mermaid_id := hinv.1
    have hmis : i1.missions = info.missions := hinv.2.1
    by_cases h5 : tc = MAX_TRY_COUNT
    · have hred : runIteration cm np info ti =
          ((runAttempts info 1 ti.attempts).1 ++
            [GameEvent.GameResult GameResult.BadWins],
           IterResult.ended GameResult.BadWins) := by
        simp [runIteration, ha, h5]
      rw [hred]
      constructor
      · intro hmem
        rcases List.mem_append.mp hmem with hmem | hmem
        · exact absurd hmem hnoA
        · simp at hmem
      · rintro ⟨j1, jtc, he, -⟩
        exfalso
        have hex : ex = LoopExit.approved :=
          congrArg (fun p => p.2.2) (Option.some.inj he)
        have hle := hinv.2.2.2.2 hex
        simp only [MAX_TRY_COUNT] at h5
        omega
    · cases ex with
      | spiral =>
        exact absurd (hinv.2.2.2.1 rfl) h5
      | approved =>
        by_cases hcond : 7 ≤ np ∧ 1 < i1.missions.length + 1 ∧
            i1.missions.length + 1 < 5 ∧
            ¬(calc_winner (i1.missions ++
              [calc_mission_result cm np ti.missionVotes]) ≠ none)
        · cases hp : ({ i1 with missions := i1.missions ++
              [calc_mission_result cm np ti.missionVotes] } :
                GameInfo).players[ti.mermaidSelection]? with
          | none =>
            have hred : runIteration cm np info ti =
                ((runAttempts info 1 ti.attempts).1 ++
                  [GameEvent.MissionResult ti.missionVotes] ++
                  [GameEvent.Mermaid i1.mermaid_id],
                 IterResult.aborted) := by
              simp [runIteration, ha, h5, hcond, hp]
            rw [hred]
            constructor
            · intro hmem
              rcases List.mem_append.mp hmem with hmem | hmem
              · rcases List.mem_append.mp hmem with hmem | hmem
                · exact absurd hmem hnoA
                · simp at hmem
              · simp at hmem
                refine ⟨i1, tc, rfl, hmem.trans hmer, hcond.1, ?_, ?_, ?_⟩
                · rw [← hmis]
                  exact hcond.2.1
                · rw [← hmis]
                  exact hcond.2.2.1
                · rw [← hmis]
                  have := hcond.2.2.2
                  simpa using this
            · rintro ⟨j1, jtc, he, hx, -⟩
              simp [hx, hmer]
          | some role =>
            have hred : runIteration cm np info ti =
                ((runAttempts info 1 ti.attempts).1 ++
                  [GameEvent.MissionResult ti.missionVotes] ++
                  [GameEvent.Mermaid i1.mermaid_id] ++
                  [GameEvent.MermaidResult i1.mermaid_id ti.mermaidSelection
                     (if role.is_good then Team.Good else Team.Bad),
                   GameEvent.MermaidSays i1.mermaid_id ti.mermaidSelection
                     ti.mermaidWord],
                 IterResult.cont
                   { i1 with
                      missions := i1.missions ++
                        [calc_mission_result cm np ti.missionVotes]
                      mermaid_id := ti.mermaidSelection }) := by
              simp [runIteration, ha, h5, hcond, hp]
            rw [hred]
            constructor
            · intro hmem
              rcases List.mem_append.mp hmem with hmem | hmem
              · rcases List.mem_append.mp hmem with hmem | hmem
                · rcases List.mem_append.mp hmem with hmem | hmem
                  · exact absurd hmem hnoA
                  · simp at hmem
                · simp at hmem
                  refine ⟨i1, tc, rfl, hmem.trans hmer, hcond.1, ?_, ?_, ?_⟩
                  · rw [← hmis]
                    exact hcond.2.1
                  · rw [← hmis]
                    exact hcond.2.2.1
                  · rw [← hmis]
                    have := hcond.2.2.2
                    simpa using this
              · simp at hmem
            · rintro ⟨j1, jtc, he, hx, -⟩
              simp [hx, hmer]
        · have hred : runIteration cm np info ti =
              ((runAttempts info 1 ti.attempts).1 ++
                [GameEvent.MissionResult ti.missionVotes],
               IterResult.cont
                 { i1 with
                    missions := i1.missions ++
                      [calc_mission_result cm np ti.missionVotes] }) := by
            simp only [runIteration, ha]
            rw [if_neg h5, if_neg hcond]
          rw [hred]
          constructor
          · intro hmem
            rcases List.mem_append.mp hmem with hmem | hmem
            · exact absurd hmem hnoA
            · simp at hmem
          · rintro ⟨j1, jtc, he, hx, h7, hi1, hi2, hw⟩
            exfalso
            apply hcond
            refine ⟨h7, ?_, ?_, ?_⟩
            · rw [hmis]
              exact hi1
            · rw [hmis]
              exact hi2
            · rw [hmis]
              simpa using hw

/-- `Mermaid` events only ever appear in runs with at least 7 players. -/
lemma runLoop_mermaid_players : ∀ (cm np : Nat) (mg : Option Nat)
    (script : List TurnInput) (info : GameInfo) (x : Nat),
    GameEvent.Mermaid x ∈ (runLoop cm np mg info script).1 → 7 ≤ np := by
  intro cm np mg script
  induction script with
  | nil =>
    intro info x hx
    cases hw : calc_winner info.missions with
    | some w =>
      have hred : runLoop cm np mg info [] = endPhase info mg w := by
        simp [runLoop, hw]
      rw [hred] at hx
      exact absurd hx (endPhase_no_mermaid info mg w x)
    | none =>
      have hred : runLoop cm np mg info [] = ([], none) := by
        simp [runLoop, hw]
      rw [hred] at hx
      simp at hx
  | cons ti rest ih =>
    intro info x hx
    cases hw : calc_winner info.missions with
    | some w =>
      have hred : runLoop cm np mg info (ti :: rest) = endPhase info mg w := by
        simp [runLoop, hw]
      rw [hred] at hx
      exact absurd hx (endPhase_no_mermaid info mg w x)
    | none =>
      cases hit : runIteration cm np info ti with
      | mk evs res =>
        have hiterMem : GameEvent.Mermaid x ∈ evs → 7 ≤ np := by
          intro hm
          have : GameEvent.Mermaid x ∈ (runIteration cm np info ti).1 := by
            rw [hit]
            exact hm
          obtain ⟨-, -, -, -, h7, -⟩ :=
            (runIteration_mermaid_iff cm np info ti x).mp this
          exact h7
        cases res with
        | ended r =>
          have hred : runLoop cm np mg info (ti :: rest) = (evs, some r) := by
            simp [runLoop, hw, hit]
          rw [hred] at hx
          exact hiterMem hx
        | aborted =>
          have hred : runLoop cm np mg info (ti :: rest) = (evs, none) := by
            simp [runLoop, hw, hit]
          rw [hred] at hx
          exact hiterMem hx
        | cont info2 =>
          have hred : runLoop cm np mg info (ti :: rest) =
              (evs ++ (runLoop cm np mg info2 rest).1,
               (runLoop cm np mg info2 rest).2) := by
            simp [runLoop, hw, hit]
          rw [hred] at hx
          rcases List.mem_append.mp hx with hx | hx
          · exact hiterMem hx
          · exact ih info2 x hx

/-- C7: the driver emits a `ClairvoyanceTurn` (`Mermaid`) event in an
iteration exactly when the team was approved, at least 7 players are in the
game, the just-completed mission's index lies in the window between missions
2 and 4 inclusive, and no winner is determined by the just-appended outcome;
and any `Mermaid` event anywhere in a run implies at least 7 players. -/
theorem mermaid_gate_spec :
    (∀ (cm np : Nat) (info : GameInfo) (ti : TurnInput) (x : Nat),
      GameEvent.Mermaid x ∈ (runIteration cm np info ti).1 ↔
      (∃ i1 tc, (runAttempts info 1 ti.attempts).2 =
          some (i1, tc, LoopExit.approved) ∧
        x = info.mermaid_id ∧ 7 ≤ np ∧ 1 < info.missions.length + 1 ∧
        info.missions.length + 1 < 5 ∧
        calc_winner (info.missions ++
          [calc_mission_result cm np ti.missionVotes]) = none)) ∧
    (∀ (info : GameInfo) (script : List TurnInput) (mg : Option Nat)
      (x : Nat),
      GameEvent.Mermaid x ∈ (Game.start info script mg).1 →
      7 ≤ info.players.length) :=
  ⟨runIteration_mermaid_iff,
   fun info script mg x hx =>
     runLoop_mermaid_players (info.missions.length + 1) info.players.length
       mg script info x hx⟩

/-- A fresh 7-player game record (crown 0, mermaid 6). -/
def sevenInfo : GameInfo :=
  { players := [.Merlin, .Percival, .Good, .Good2, .Mordred, .Morgen,
                .Oberon]
    expected_team_size := 0
    current_team := []
    mermaid_id := 6
    crown_id := 0
    missions := [] }

/-- One unanimously approved 7-player turn with the given mission votes. -/
def sevenTurn (mv : List MissionVote) : TurnInput :=
  { attempts := [([0, 1], List.replicate 7 TeamVote.Approve)]
    missionVotes := mv
    mermaidSelection := 3
    mermaidWord := .Good }

/-- C7 witness: a 7-player run whose second completed mission triggers the
clairvoyance phase (the `Mermaid 6` event appears), instantiating the
whole-run implication. -/
theorem mermaid_gate_spec_witness : 7 ≤ sevenInfo.players.length :=
  mermaid_gate_spec.2 sevenInfo
    [sevenTurn [.Success, .Success],
     sevenTurn [.Success, .Success, .Success]] none 6 (by decide)

end Avalon
